import Mathlib

/-!
Verification of the Non-Inflatable Assets (NIA) schema construction
(`src/nia.rs` of the rgb-schemata repository).

The file shallowly embeds the construction pipeline: the fixed AluVM
instruction sequence, its assembly into a content-addressed library, the
offset/opcode consistency assertions, the schema aggregate, the RGB20
interface implementation binding, and the script set.

External collaborators (the aluvm assembler, the rgbstd schema data types,
the opcode table, the strict type system, and the slot-id constants defined
at the crate root outside `src/`) are modelled from the specification; each
such definition carries a doc comment starting with `Modelled from the
spec:`.  Rust panics (`expect`, `assert_eq!`, out-of-bounds indexing) are
embedded as the `BuildOutcome.panicked` constructor, kept distinct from a
structured error returned to the caller (`Except.error`).
-/

/-- Modelled from the spec: the commitment-sum-consistency opcode
(`rgbstd::vm::opcodes::INSTR_PCCS`, external to `src/`).  The exact numeric
value lives in the external opcode table; only its distinctness from the
other opcodes and its placement in the assembled stream matter here. -/
def INSTR_PCCS : Nat := 0xD1

/-- Modelled from the spec: the commitment-sum-conservation opcode
(`rgbstd::vm::opcodes::INSTR_PCVS`, external to `src/`); a representative
distinct byte value. -/
def INSTR_PCVS : Nat := 0xD0

/-- Modelled from the spec: the aluvm subroutine-terminating `ret` opcode
(external to `src/`); a representative distinct byte value. -/
def INSTR_RET : Nat := 0x58

/-- Modelled from the spec: the subset of the RGB instruction set used by
the NIA validation script (spec section 6): `pccs` takes two 16-bit
range-bound operands, `pcvs` a single 16-bit family-selector operand, and
`ret` terminates a subroutine.  Operands are natural numbers; the 16-bit
range is enforced by the assembler. -/
inductive RgbInstr where
  | pccs (a b : Nat)
  | ret
  | pcvs (a : Nat)
deriving DecidableEq, Repr

/-- Modelled from the spec: byte encoding of each instruction — one opcode
byte followed by the little-endian bytes of each 16-bit operand, so `pccs`
occupies 5 bytes, `ret` 1 byte and `pcvs` 3 bytes (consistent with the
source constants `FN_GENESIS_OFFSET = 0`, `FN_TRANSFER_OFFSET = 5 + 1`). -/
def encodeInstr : RgbInstr → List Nat
  | RgbInstr.pccs a b =>
      [INSTR_PCCS, a % 256, a / 256 % 256, b % 256, b / 256 % 256]
  | RgbInstr.ret => [INSTR_RET]
  | RgbInstr.pcvs a => [INSTR_PCVS, a % 256, a / 256 % 256]

/-- Byte stream of an assembled instruction sequence. -/
def assembleCode (insns : List RgbInstr) : List Nat :=
  (insns.map encodeInstr).flatten

/-- Modelled from the spec: content-addressed identity of a bytecode
library — a deterministic pure function of the instruction bytes (spec
sections 4.1 and 9).  The concrete hash lives in the external aluvm crate;
it is modelled by the canonical byte stream itself, which preserves the
two properties the claims use: determinism and content-dependence. -/
structure LibId where
  digest : List Nat
deriving DecidableEq, Repr

/-- Modelled from the spec: an immutable bytecode module (aluvm `Lib`,
external to `src/`): the assembled instruction stream. -/
structure Lib where
  code : List Nat
deriving DecidableEq, Repr

/-- Content-derived library identity (`Lib::id`). -/
def Lib.id (l : Lib) : LibId := LibId.mk l.code

/-- Operand range check: every operand must fit in 16 bits. -/
def instrOperandsOk : RgbInstr → Bool
  | RgbInstr.pccs a b => decide (a < 0x10000) && decide (b < 0x10000)
  | RgbInstr.ret => true
  | RgbInstr.pcvs a => decide (a < 0x10000)

/-- Maximum code size of a library (16-bit addressable code segment). -/
def CODE_SIZE_MAX : Nat := 0xFFFF

/-- Modelled from the spec: `Lib::assemble` (external aluvm crate) — turns
the symbolic instruction sequence into a library, failing with a structured
assembly error if an instruction references an operand out of range or the
stream exceeds the maximum code size (spec section 4.1). -/
def Lib.assemble (insns : List RgbInstr) : Except String Lib :=
  if insns.all instrOperandsOk then
    let code := assembleCode insns
    if code.length ≤ CODE_SIZE_MAX then Except.ok (Lib.mk code)
    else Except.error ("code size exceeds maximum")
  else Except.error ("operand out of range")

deriving instance DecidableEq for Except

/-- Outcome of a Rust computation that can panic: either a value or a
process-terminating panic carrying the panic message.  A panic is distinct
from a structured error returned to the caller (`Except.error`). -/
inductive BuildOutcome (α : Type) where
  | ok (value : α)
  | panicked (msg : String)
deriving DecidableEq, Repr

/-- Embedding of Rust `Result::expect`: unwrap the value or panic with the
given message. -/
def expectOr {α : Type} : Except String α → String → BuildOutcome α
  | Except.ok a, _ => BuildOutcome.ok a
  | Except.error _, m => BuildOutcome.panicked m

/-- Embedding of Rust slice indexing `xs[i]`: the byte, or an
out-of-bounds panic. -/
def indexPanic (xs : List Nat) (i : Nat) : BuildOutcome Nat :=
  match xs[i]? with
  | some b => BuildOutcome.ok b
  | none => BuildOutcome.panicked ("index out of bounds")

/-- Extract the successful value, if any. -/
def BuildOutcome.toOption {α : Type} : BuildOutcome α → Option α
  | BuildOutcome.ok a => some a
  | BuildOutcome.panicked _ => none

/-- SUBROUTINE 1 of the NIA script (genesis validation): check pedersen
commitments against the reported issued amount, then return. -/
def genesisSubroutine : List RgbInstr :=
  [RgbInstr.pccs 0x0FA0 0x07D2, RgbInstr.ret]

/-- SUBROUTINE 2 of the NIA script (transfer validation): check that input
and output commitment sums are equal. -/
def transferSubroutine : List RgbInstr :=
  [RgbInstr.pcvs 0x0FA0]

/-- The full instruction sequence written in the `rgbasm!` block of
`nia_lib` in `src/nia.rs`. -/
def niaInstrs : List RgbInstr := genesisSubroutine ++ transferSubroutine

/-- `nia_lib` with the instruction stream abstracted: assemble and unwrap
with `expect("wrong non-inflatable asset script")`, exactly as the source
does on its fixed sequence. -/
def nia_lib_with (insns : List RgbInstr) : BuildOutcome Lib :=
  expectOr (Lib.assemble insns) ("wrong non-inflatable asset script")

/-- `fn nia_lib() -> Lib` from `src/nia.rs`. -/
def nia_lib (_ : Unit) : BuildOutcome Lib := nia_lib_with niaInstrs

/-- `FN_GENESIS_OFFSET` from `src/nia.rs`. -/
def FN_GENESIS_OFFSET : Nat := 0

/-- `FN_TRANSFER_OFFSET` from `src/nia.rs`. -/
def FN_TRANSFER_OFFSET : Nat := 5 + 1

/-- Modelled from the spec: the slot-id constant `GS_NOMINAL` (asset
specification global slot), defined at the crate root outside `src/`; a
distinct numeric state-type id. -/
def GS_NOMINAL : Nat := 2000

/-- Modelled from the spec: the slot-id constant `GS_TERMS` (asset terms
global slot), defined at the crate root outside `src/`. -/
def GS_TERMS : Nat := 2001

/-- Modelled from the spec: the slot-id constant `GS_ISSUED_SUPPLY`
(issued-amount global slot), defined at the crate root outside `src/`. -/
def GS_ISSUED_SUPPLY : Nat := 2002

/-- Modelled from the spec: the slot-id constant `OS_ASSET` (fungible
owned-state slot), defined at the crate root outside `src/`. -/
def OS_ASSET : Nat := 4000

/-- Modelled from the spec: the transition-kind-id constant `TS_TRANSFER`,
defined at the crate root outside `src/`. -/
def TS_TRANSFER : Nat := 10000

/-- Modelled from the spec: occurrence (cardinality) constraints on a slot
within an operation — the two constraint classes this schema uses:
"exactly once" and "one or more" (spec glossary). -/
inductive Occurrences where
  | Once
  | OnceOrMore
deriving DecidableEq, Repr

/-- Modelled from the spec: a validator address — a pair of a library
identity and a byte offset into that library (`aluvm::library::LibSite`,
external to `src/`). -/
structure LibSite where
  pos : Nat
  lib : LibId
deriving DecidableEq, Repr

/-- `LibSite::with(pos, lib)`. -/
def LibSite.with (pos : Nat) (lib : LibId) : LibSite := LibSite.mk pos lib

/-- Modelled from the spec: the strict-type system lookup
(`StandardTypes::get`, external to `src/`) returning the typed field
descriptor registered under a name; modelled as the type name itself,
which is all the schema stores. -/
def StandardTypes.get (name : String) : String := name

/-- Modelled from the spec: a global state slot declaration
(`rgbstd::schema::GlobalStateSchema`, external to `src/`): the declared
strict type and the occurrence constraint. -/
structure GlobalStateSchema where
  semId : String
  occurrence : Occurrences
deriving DecidableEq, Repr

/-- `GlobalStateSchema::once(ty)`: the given type, occurring exactly once. -/
def GlobalStateSchema.once (ty : String) : GlobalStateSchema :=
  GlobalStateSchema.mk ty Occurrences.Once

/-- Modelled from the spec: the fungible value kind used by the owned
slot — an unsigned 64-bit amount (`rgbstd::schema::FungibleType`). -/
inductive FungibleType where
  | Unsigned64Bit
deriving DecidableEq, Repr

/-- Modelled from the spec: an owned state slot declaration
(`rgbstd::schema::OwnedStateSchema`); only the fungible kind is used. -/
inductive OwnedStateSchema where
  | Fungible (ty : FungibleType)
deriving DecidableEq, Repr

/-- Modelled from the spec: the contract-creation rule
(`rgbstd::schema::GenesisSchema`): required global slots, created
owned-state assignments (each with an occurrence constraint), valencies,
and an optional validator address.  The `tiny_bmap!` ordered maps of the
source are embedded as key-sorted association lists. -/
structure GenesisSchema where
  metadata : List Nat
  globals : List (Nat × Occurrences)
  assignments : List (Nat × Occurrences)
  valencies : List Nat
  validator : Option LibSite
deriving DecidableEq, Repr

/-- Modelled from the spec: a state-transition rule
(`rgbstd::schema::TransitionSchema`): global fields it may declare,
required input owned slots, produced output owned slots, valencies, and an
optional validator address. -/
structure TransitionSchema where
  metadata : List Nat
  globals : List (Nat × Occurrences)
  inputs : List (Nat × Occurrences)
  assignments : List (Nat × Occurrences)
  valencies : List Nat
  validator : Option LibSite
deriving DecidableEq, Repr

/-- Modelled from the spec: the schema aggregate (`rgbstd::schema::Schema`):
version, flags, name, developer identity, declared meta/global/owned/valency
types, the genesis rule, extensions, and the transition rules keyed by
transition-kind id. -/
structure Schema where
  ffv : Nat
  flags : List Nat
  name : String
  developer : String
  metaTypes : List Nat
  globalTypes : List (Nat × GlobalStateSchema)
  ownedTypes : List (Nat × OwnedStateSchema)
  valencyTypes : List Nat
  genesis : GenesisSchema
  extensions : List Nat
  transitions : List (Nat × TransitionSchema)
deriving DecidableEq, Repr

/-- Modelled from the spec: the content-derived schema identity
(`Schema::schema_id`, external to `src/`): a deterministic pure function of
the schema's full content (spec sections 3 and 9); the concrete hash is
modelled by the canonical content itself. -/
structure SchemaId where
  content : Schema
deriving DecidableEq, Repr

/-- `Schema::schema_id()`. -/
def Schema.schema_id (s : Schema) : SchemaId := SchemaId.mk s

/-- Modelled from the spec: the fixed developer identity `LNPBP_IDENTITY`
(external `ifaces` crate); the exact literal is immaterial here. -/
def LNPBP_IDENTITY : String := "ssi:LNP-BP"

/-- `fn nia_schema() -> Schema` from `src/nia.rs`, with the instruction
stream of the library build abstracted as a parameter (the source fixes it
to `niaInstrs`).  Mirrors the source line by line: build the library with
`nia_lib()` (panicking on assembly failure), take its id, `assert_eq!` the
opcode bytes at the two recorded offsets, then construct the schema
aggregate. -/
def nia_schema_with (insns : List RgbInstr) : BuildOutcome Schema :=
  match nia_lib_with insns with
  | BuildOutcome.panicked m => BuildOutcome.panicked m
  | BuildOutcome.ok alu_lib =>
    let alu_id := alu_lib.id
    match indexPanic alu_lib.code FN_GENESIS_OFFSET with
    | BuildOutcome.panicked m => BuildOutcome.panicked m
    | BuildOutcome.ok b0 =>
      if b0 = INSTR_PCCS then
        match indexPanic alu_lib.code FN_TRANSFER_OFFSET with
        | BuildOutcome.panicked m => BuildOutcome.panicked m
        | BuildOutcome.ok b1 =>
          if b1 = INSTR_PCVS then
            BuildOutcome.ok
              { ffv := 0
                flags := []
                name := "NonInflatableAsset"
                developer := LNPBP_IDENTITY
                metaTypes := []
                globalTypes :=
                  [(GS_NOMINAL,
                     GlobalStateSchema.once
                       (StandardTypes.get ("RGBContract.AssetSpec"))),
                   (GS_TERMS,
                     GlobalStateSchema.once
                       (StandardTypes.get ("RGBContract.AssetTerms"))),
                   (GS_ISSUED_SUPPLY,
                     GlobalStateSchema.once
                       (StandardTypes.get ("RGBContract.Amount")))]
                ownedTypes :=
                  [(OS_ASSET, OwnedStateSchema.Fungible FungibleType.Unsigned64Bit)]
                valencyTypes := []
                genesis :=
                  { metadata := []
                    globals :=
                      [(GS_NOMINAL, Occurrences.Once),
                       (GS_TERMS, Occurrences.Once),
                       (GS_ISSUED_SUPPLY, Occurrences.Once)]
                    assignments := [(OS_ASSET, Occurrences.OnceOrMore)]
                    valencies := []
                    validator := some (LibSite.with FN_GENESIS_OFFSET alu_id) }
                extensions := []
                transitions :=
                  [(TS_TRANSFER,
                    { metadata := []
                      globals := []
                      inputs := [(OS_ASSET, Occurrences.OnceOrMore)]
                      assignments := [(OS_ASSET, Occurrences.OnceOrMore)]
                      valencies := []
                      validator := some (LibSite.with FN_TRANSFER_OFFSET alu_id) })] }
          else BuildOutcome.panicked ("assertion failed")
      else BuildOutcome.panicked ("assertion failed")

/-- `fn nia_schema() -> Schema` on the source's fixed instruction
sequence. -/
def nia_schema (_ : Unit) : BuildOutcome Schema := nia_schema_with niaInstrs

/-- Modelled from the spec: the interface identity of the RGB20 interface
with no extra features (`Rgb20::iface(Features::NONE).iface_id()`, external
`ifaces` crate); a fixed descriptor token. -/
def rgb20IfaceIdNone : String := "RGB20.Features.NONE"

/-- Modelled from the spec: a named field of an implementation binding
(`rgbstd::interface::NamedField`): an internal id paired with the external
field name the interface expects. -/
structure NamedField where
  id : Nat
  name : String
deriving DecidableEq, Repr

/-- `NamedField::with(id, name)`. -/
def NamedField.with (id : Nat) (name : String) : NamedField :=
  NamedField.mk id name

/-- Modelled from the spec: the implementation binding
(`rgbstd::interface::IfaceImpl`): version tag, bound schema identity,
interface identity, creation timestamp, developer identity, and the
name-maps from internal ids to external field names. -/
structure IfaceImpl where
  version : Nat
  schema_id : SchemaId
  iface_id : String
  timestamp : Int
  developer : String
  global_state : List NamedField
  assignments : List NamedField
  valencies : List Nat
  transitions : List NamedField
  extensions : List Nat
deriving DecidableEq, Repr

/-- `fn nia_rgb20() -> IfaceImpl` from `src/nia.rs`.  The creation
timestamp comes from the ambient clock (`Utc::now().timestamp()`), which is
passed explicitly as `now`; a panic in the underlying `nia_schema()` build
propagates. -/
def nia_rgb20 (now : Int) : BuildOutcome IfaceImpl :=
  match nia_schema () with
  | BuildOutcome.panicked m => BuildOutcome.panicked m
  | BuildOutcome.ok schema =>
    BuildOutcome.ok
      { version := 1
        schema_id := schema.schema_id
        iface_id := rgb20IfaceIdNone
        timestamp := now
        developer := LNPBP_IDENTITY
        global_state :=
          [NamedField.with GS_NOMINAL ("spec"),
           NamedField.with GS_TERMS ("terms"),
           NamedField.with GS_ISSUED_SUPPLY ("issuedSupply")]
        assignments := [NamedField.with OS_ASSET ("assetOwner")]
        valencies := []
        transitions := [NamedField.with TS_TRANSFER ("transfer")]
        extensions := [] }

/-- `NonInflatableAsset::scripts()` from `src/nia.rs`: the script set, a
one-entry map from the NIA library's id to the library. -/
def NonInflatableAsset.scripts (u : Unit) : BuildOutcome (List (LibId × Lib)) :=
  match nia_lib u with
  | BuildOutcome.panicked m => BuildOutcome.panicked m
  | BuildOutcome.ok lib => BuildOutcome.ok [(lib.id, lib)]

/-- All validator addresses declared by a schema: the genesis rule's
validator followed by each transition rule's validator. -/
def validatorSites (s : Schema) : List LibSite :=
  s.genesis.validator.toList ++ s.transitions.filterMap (fun t => t.2.validator)

/-- A validator address resolves against a script set when the set holds a
library under exactly that id whose code extends beyond the address's
offset. -/
def siteResolves (scripts : List (LibId × Lib)) (site : LibSite) : Bool :=
  scripts.any (fun p => decide (p.1 = site.lib) && decide (site.pos < p.2.code.length))

/-- Interface-binding coverage: every internal id named in the binding's
global-state, assignment and transition name-maps exists in the bound
schema's corresponding declaration map, and the binding records the bound
schema's identity. -/
def bindingCoverage (s : Schema) (imp : IfaceImpl) : Bool :=
  imp.global_state.all (fun nf => s.globalTypes.any (fun g => decide (g.1 = nf.id))) &&
  imp.assignments.all (fun nf => s.ownedTypes.any (fun o => decide (o.1 = nf.id))) &&
  imp.transitions.all (fun nf => s.transitions.any (fun t => decide (t.1 = nf.id))) &&
  decide (imp.schema_id = s.schema_id)

/-- A concrete malformed instruction sequence: the first `pccs` operand
does not fit in 16 bits, so assembly fails. -/
def badInsns : List RgbInstr := [RgbInstr.pccs 0x10000 0]

/-- C1: the NIA schema builds successfully; the assembled library's byte at
the genesis validator offset (`FN_GENESIS_OFFSET = 0`) is the
commitment-sum-consistency opcode `INSTR_PCCS` and the byte at the transfer
validator offset (`FN_TRANSFER_OFFSET = 6`) is the commitment-sum-conservation
opcode `INSTR_PCVS`; the code is the genesis subroutine's encoding followed
by the transfer subroutine's, so the genesis subroutine starts at offset 0
and the transfer subroutine starts at offset 6. -/
theorem nia_offset_opcode_consistency :
    (nia_schema ()).toOption.isSome = true ∧
    nia_lib () = BuildOutcome.ok (Lib.mk (assembleCode niaInstrs)) ∧
    (assembleCode niaInstrs)[FN_GENESIS_OFFSET]? = some INSTR_PCCS ∧
    (assembleCode niaInstrs)[FN_TRANSFER_OFFSET]? = some INSTR_PCVS ∧
    assembleCode niaInstrs =
      assembleCode genesisSubroutine ++ assembleCode transferSubroutine ∧
    FN_GENESIS_OFFSET = 0 ∧
    (assembleCode genesisSubroutine).length = FN_TRANSFER_OFFSET ∧
    FN_TRANSFER_OFFSET = 6 := by
  decide

/-- C2: every validator address of the built NIA schema (the genesis rule's
and the transfer transition's) carries the id of the assembled NIA library,
that id is a key of the script set returned by
`NonInflatableAsset::scripts()`, and the address's offset lies inside that
library's code. -/
theorem nia_validator_addresses_resolve :
    (nia_schema ()).toOption.map (fun s =>
      (validatorSites s).all (fun site =>
        decide ((nia_lib ()).toOption.map Lib.id = some site.lib) &&
        (match (NonInflatableAsset.scripts ()).toOption with
         | some scripts => siteResolves scripts site
         | none => false))) = some true := by
  decide

/-- C3: building is deterministic — any two independent calls of
`nia_lib` produce libraries with the same content-derived identity, and any
two independent calls of `nia_schema` produce schemas with the same schema
identity. -/
theorem nia_build_deterministic (u v : Unit) :
    (nia_lib u).toOption.map Lib.id = (nia_lib v).toOption.map Lib.id ∧
    (nia_schema u).toOption.map Schema.schema_id =
      (nia_schema v).toOption.map Schema.schema_id :=
  And.intro rfl rfl

/-- Witness for C3 at the concrete call sites. -/
theorem nia_build_deterministic_w :
    (nia_lib ()).toOption.map Lib.id = (nia_lib ()).toOption.map Lib.id ∧
    (nia_schema ()).toOption.map Schema.schema_id =
      (nia_schema ()).toOption.map Schema.schema_id :=
  nia_build_deterministic () ()

/-- C4 as stated is false: the genesis check's `pccs` instruction has
bound-constant operands `0x0FA0` and `0x07D2`, i.e. 4000 and 2002 — not
4000 and 2000 — so the assembled sequence is not
`[pccs 4000 2000, ret, pcvs 4000]`. -/
theorem nia_lib_operands_counterexample :
    ¬ (niaInstrs =
        [RgbInstr.pccs 4000 2000, RgbInstr.ret, RgbInstr.pcvs 4000]) := by
  decide

/-- C4 (amended): the assembled NIA library consists of exactly two
subroutines — a genesis check that is a `pccs` instruction with
bound-constant operands 4000 and 2002 followed by a `ret`, and a transfer
check that is a `pcvs` instruction with family-selector operand 4000. -/
theorem nia_lib_two_subroutines :
    niaInstrs = genesisSubroutine ++ transferSubroutine ∧
    genesisSubroutine = [RgbInstr.pccs 4000 2002, RgbInstr.ret] ∧
    transferSubroutine = [RgbInstr.pcvs 4000] ∧
    nia_lib () = BuildOutcome.ok (Lib.mk (assembleCode niaInstrs)) := by
  decide

/-- C5 as stated is false: the built schema declares three global slots
(`GS_NOMINAL`, `GS_TERMS`, `GS_ISSUED_SUPPLY`), not one. -/
theorem nia_schema_single_global_counterexample :
    ¬ ((nia_schema ()).toOption.map (fun s => s.globalTypes.length) = some 1) := by
  decide

/-- C5 (amended): the built schema declares the issued-supply global slot
(`GS_ISSUED_SUPPLY`, bound to the external name "issuedSupply") with
occurrence exactly once — as one of its three global slots — and exactly one
owned slot (`OS_ASSET`, "asset") of fungible kind; the genesis rule requires
the `OS_ASSET` assignment with occurrence one-or-more and has validator
address (library id, offset 0); and there is exactly one transition rule
(`TS_TRANSFER`, "transfer") whose inputs and produced assignments both
require `OS_ASSET` with occurrence one-or-more, with validator address
(library id, offset 6). -/
theorem nia_schema_shape :
    (nia_schema ()).toOption.map (fun s =>
      s.globalTypes.any (fun g =>
        decide (g.1 = GS_ISSUED_SUPPLY) &&
        decide (g.2.occurrence = Occurrences.Once)) &&
      decide (s.globalTypes.length = 3) &&
      decide (s.ownedTypes =
        [(OS_ASSET, OwnedStateSchema.Fungible FungibleType.Unsigned64Bit)]) &&
      decide (s.genesis.assignments = [(OS_ASSET, Occurrences.OnceOrMore)]) &&
      decide (s.genesis.validator =
        some (LibSite.with 0 (Lib.id (Lib.mk (assembleCode niaInstrs))))) &&
      decide (s.transitions.map (fun t => t.1) = [TS_TRANSFER]) &&
      s.transitions.all (fun t =>
        decide (t.2.inputs = [(OS_ASSET, Occurrences.OnceOrMore)]) &&
        decide (t.2.assignments = [(OS_ASSET, Occurrences.OnceOrMore)]) &&
        decide (t.2.validator =
          some (LibSite.with 6 (Lib.id (Lib.mk (assembleCode niaInstrs))))))) =
      some true := by
  decide

/-- C6 as stated is false: at this concrete malformed instruction sequence,
assembly fails with a structured error inside the external assembler, but
the construction surfaces the failure as a process-terminating panic (the
source's `expect`/`assert_eq!`), not as a structured build error returned
to the caller. -/
theorem nia_build_error_counterexample :
    Lib.assemble badInsns = Except.error ("operand out of range") ∧
    nia_lib_with badInsns =
      BuildOutcome.panicked ("wrong non-inflatable asset script") ∧
    nia_schema_with badInsns =
      BuildOutcome.panicked ("wrong non-inflatable asset script") := by
  decide

/-- C6 (amended): if assembly of the instruction sequence fails, or the
byte at the genesis offset is not the required opcode, schema construction
aborts immediately with no partial artifact — but via a process-terminating
panic carrying a descriptive message (`expect("wrong non-inflatable asset
script")`, `assert_eq!`), not via a structured build error returned to the
caller. -/
theorem nia_build_panics_on_failure :
    (∀ insns e, Lib.assemble insns = Except.error e →
      nia_schema_with insns =
        BuildOutcome.panicked ("wrong non-inflatable asset script")) ∧
    (∀ insns l b, Lib.assemble insns = Except.ok l →
      l.code[FN_GENESIS_OFFSET]? = some b → b ≠ INSTR_PCCS →
      nia_schema_with insns = BuildOutcome.panicked ("assertion failed")) ∧
    (∀ insns l b, Lib.assemble insns = Except.ok l →
      l.code[FN_GENESIS_OFFSET]? = some INSTR_PCCS →
      l.code[FN_TRANSFER_OFFSET]? = some b → b ≠ INSTR_PCVS →
      nia_schema_with insns = BuildOutcome.panicked ("assertion failed")) := by
  refine And.intro ?_ (And.intro ?_ ?_)
  · intro insns e h
    simp [nia_schema_with, nia_lib_with, h, expectOr]
  · intro insns l b h hb hne
    simp [nia_schema_with, nia_lib_with, h, expectOr, indexPanic, hb, hne]
  · intro insns l b h h0 hb hne
    simp [nia_schema_with, nia_lib_with, h, expectOr, indexPanic, h0, hb, hne]

/-- Witness for C6 (amended) at concrete inputs: the malformed sequence
panics with the `expect` message; a sequence assembling to a lone `ret`
fails the genesis-opcode assertion; a sequence whose genesis subroutine is
intact but whose byte at the transfer offset is a `ret` opcode fails the
transfer-opcode assertion. -/
theorem nia_build_panics_on_failure_w :
    nia_schema_with badInsns =
      BuildOutcome.panicked ("wrong non-inflatable asset script") ∧
    nia_schema_with [RgbInstr.ret] =
      BuildOutcome.panicked ("assertion failed") ∧
    nia_schema_with [RgbInstr.pccs 4000 2002, RgbInstr.ret, RgbInstr.ret] =
      BuildOutcome.panicked ("assertion failed") :=
  And.intro
    (nia_build_panics_on_failure.1 badInsns ("operand out of range") (by decide))
    (And.intro
      (nia_build_panics_on_failure.2.1 [RgbInstr.ret] (Lib.mk [INSTR_RET])
        INSTR_RET (by decide) (by decide) (by decide))
      (nia_build_panics_on_failure.2.2
        [RgbInstr.pccs 4000 2002, RgbInstr.ret, RgbInstr.ret]
        (Lib.mk (assembleCode
          [RgbInstr.pccs 4000 2002, RgbInstr.ret, RgbInstr.ret]))
        INSTR_RET (by decide) (by decide) (by decide) (by decide)))

/-- C7: slot-reference closure — every global slot id mentioned in the
genesis rule's globals map is a key of the schema's global-types map (the
ids being exactly `GS_NOMINAL`, `GS_TERMS`, `GS_ISSUED_SUPPLY`), and every
owned slot id mentioned in the genesis assignments and in each transition's
inputs and assignments (exactly `OS_ASSET`) is a key of the owned-types
map. -/
theorem nia_slot_reference_closure :
    (nia_schema ()).toOption.map (fun s =>
      s.genesis.globals.all (fun kv =>
        s.globalTypes.any (fun g => decide (g.1 = kv.1))) &&
      s.genesis.assignments.all (fun kv =>
        s.ownedTypes.any (fun o => decide (o.1 = kv.1))) &&
      s.transitions.all (fun t =>
        t.2.globals.all (fun kv =>
          s.globalTypes.any (fun g => decide (g.1 = kv.1))) &&
        t.2.inputs.all (fun kv =>
          s.ownedTypes.any (fun o => decide (o.1 = kv.1))) &&
        t.2.assignments.all (fun kv =>
          s.ownedTypes.any (fun o => decide (o.1 = kv.1)))) &&
      decide (s.genesis.globals.map (fun kv => kv.1) =
        [GS_NOMINAL, GS_TERMS, GS_ISSUED_SUPPLY]) &&
      decide (s.genesis.assignments.map (fun kv => kv.1) = [OS_ASSET])) =
      some true := by
  decide

/-- C8: interface-binding coverage — every internal id named in the
binding's global-state, assignment and transition name-maps exists in the
bound schema's global-types, owned-types or transitions map respectively,
and the binding's recorded schema id equals the bound schema's identity;
this holds for every creation timestamp `now`. -/
theorem nia_iface_binding_coverage (now : Int) :
    (nia_rgb20 now).toOption.map (fun imp =>
      match (nia_schema ()).toOption with
      | some s => bindingCoverage s imp
      | none => false) = some true := by
  rfl

/-- Witness for C8 at the concrete timestamp 0. -/
theorem nia_iface_binding_coverage_w :
    (nia_rgb20 0).toOption.map (fun imp =>
      match (nia_schema ()).toOption with
      | some s => bindingCoverage s imp
      | none => false) = some true :=
  nia_iface_binding_coverage 0

/-- C9: non-inflation by construction — the built schema contains exactly
one transition rule (`TS_TRANSFER`), and that rule's globals map is empty,
so no declared transition can create or update any global state field after
genesis. -/
theorem nia_single_transition_no_globals :
    (nia_schema ()).toOption.map (fun s =>
      decide (s.transitions.map (fun t => t.1) = [TS_TRANSFER]) &&
      s.transitions.all (fun t => t.2.globals.isEmpty)) = some true := by
  decide

/-- C10: the built schema declares exactly three global state slots —
`GS_NOMINAL` (asset specification), `GS_TERMS` (asset terms) and
`GS_ISSUED_SUPPLY` (amount) — each with occurrence exactly once, and the
genesis rule requires all three with occurrence exactly once. -/
theorem nia_three_globals_once :
    (nia_schema ()).toOption.map (fun s =>
      decide (s.globalTypes =
        [(GS_NOMINAL, GlobalStateSchema.once ("RGBContract.AssetSpec")),
         (GS_TERMS, GlobalStateSchema.once ("RGBContract.AssetTerms")),
         (GS_ISSUED_SUPPLY, GlobalStateSchema.once ("RGBContract.Amount"))]) &&
      decide (s.genesis.globals =
        [(GS_NOMINAL, Occurrences.Once), (GS_TERMS, Occurrences.Once),
         (GS_ISSUED_SUPPLY, Occurrences.Once)])) = some true := by
  decide
